import Mathlib

/-!
Verification of the sensorhub core: a shallow embedding of
`src/sensorhub/core/sensor_base.py`, `src/sensorhub/core/sensor_manager.py`,
`src/sensorhub/api/routes.py` and
`src/sensorhub/adapters/livox_mid360/livox_adapter.py`, with theorems about
the embedded operations.

Python `int` is modelled as `Int`, Python lists/deques as `List`, Python
dicts as association lists, exceptions as `Except`, and wall-clock values
(timestamps) as opaque parameters supplied by the environment.
-/

namespace SensorHub

/-! ## Python list / deque primitives -/

/-- The last `n` elements of a list (newest last), as kept by a
`collections.deque` of maxlen `n`. -/
def lastN (n : Nat) (l : List α) : List α :=
  l.drop (l.length - n)

/-- `deque(maxlen := C).append x`: append, evicting the oldest element when
the deque is at capacity (for `C = 0` nothing is ever retained). -/
def dequeAppend (C : Nat) (xs : List α) (x : α) : List α :=
  lastN C (xs ++ [x])

/-- Python slice `l[i:]` for an arbitrary integer start `i`: a negative
start counts from the end (clamped at 0), a nonnegative start drops that
many elements (dropping past the end yields `[]`). -/
def pySliceFrom (xs : List α) (i : Int) : List α :=
  if i < 0 then xs.drop (((xs.length : Int) + i).toNat)
  else xs.drop i.toNat

/-- Python `list.remove(x)` wrapped in `try/except ValueError: pass`:
remove the first occurrence of `x`, or leave the list unchanged when `x`
is absent. -/
def removeFirst [BEq α] : List α → α → List α
  | [], _ => []
  | y :: ys, x => if y == x then ys else y :: removeFirst ys x

theorem lastN_length (n : Nat) (l : List α) :
    (lastN n l).length = min n l.length := by
  simp [lastN]
  omega

/-! ## `sensor_base.py`: `AbstractSensorAdapter` sample path

`publish` wraps the value with the adapter's `sensor_id` and a runtime
timestamp, sets `latest`, appends to the bounded ring, and fires the
optional `on_sample` callback, swallowing any exception it raises.
The callback is modelled as a function returning `Except Unit Unit`
(`Except.error` = the callback raised). -/

structure Sample (α : Type) where
  sensor_id : String
  ts : String
  data : α
deriving DecidableEq

structure AdapterState (α : Type) where
  sensor_id : String
  kind : String
  ringSize : Nat
  ring : List (Sample α)
  latest : Option (Sample α)
  on_sample : Option (Sample α → Except Unit Unit)

/-- `AbstractSensorAdapter.__init__(sensor_id, kind, ring_size)`. -/
def initAdapter (sid kind : String) (ringSize : Nat) : AdapterState α :=
  { sensor_id := sid, kind := kind, ringSize := ringSize
    ring := [], latest := none, on_sample := none }

/-- `AbstractSensorAdapter.publish(data)`; `ts` is the wall-clock
timestamp taken at publish time. The callback outcome is discarded in
either case (`except Exception: pass`). -/
def publish (st : AdapterState α) (ts : String) (data : α) : AdapterState α :=
  let sample : Sample α := ⟨st.sensor_id, ts, data⟩
  let st1 := { st with latest := some sample
                       ring := dequeAppend st.ringSize st.ring sample }
  match st.on_sample with
  | none => st1
  | some cb =>
    match cb sample with
    | Except.ok _ => st1
    | Except.error _ => st1

/-- A sequence of `publish` calls, each with its own timestamp and value. -/
def publishAll (st : AdapterState α) : List (String × α) → AdapterState α
  | [] => st
  | (ts, d) :: rest => publishAll (publish st ts d) rest

/-! ## `sensor_manager.py`: `SensorManager` queries -/

structure SensorManagerSt (α : Type) where
  adapters : List (String × AdapterState α)

/-- `SensorManager.latest(sensor_id)`: `None` when the id is unknown or
the adapter has published nothing (`if not a or not a.latest`). -/
def mgr_latest (m : SensorManagerSt α) (sid : String) : Option (Sample α) :=
  match m.adapters.lookup sid with
  | none => none
  | some a => a.latest

/-- `SensorManager.history(sensor_id, limit)`: `[]` for an unknown id,
otherwise `list(a.ring)[-limit:]`. -/
def mgr_history (m : SensorManagerSt α) (sid : String) (limit : Int) :
    List (Sample α) :=
  match m.adapters.lookup sid with
  | none => []
  | some a => pySliceFrom a.ring (-limit)

/-! ## `api/routes.py`: the `/sensors` routes

`latest` raises `HTTPException(404)` when the manager returns `None`;
`history` always answers with a `HistoryResponse`. -/

structure HistoryResponse (α : Type) where
  sensor_id : String
  samples : List (Sample α)
deriving DecidableEq

/-- Route `GET /sensors/(sensor_id)/latest`. -/
def route_latest (m : SensorManagerSt α) (sid : String) :
    Except Nat (Sample α) :=
  match mgr_latest m sid with
  | none => Except.error 404
  | some s => Except.ok s

/-- Route `GET /sensors/(sensor_id)/history`. -/
def route_history (m : SensorManagerSt α) (sid : String) (limit : Int) :
    Except Nat (HistoryResponse α) :=
  Except.ok ⟨sid, mgr_history m sid limit⟩

/-! ## `livox_adapter.py`: JSON values

`json.loads` output is modelled by `JVal`. Non-integer numbers are kept
opaque (`jfloat` with its textual representation): no claim inspects
them. Python objects are association lists with unique keys. -/

inductive JVal where
  | jnull
  | jbool (b : Bool)
  | jint (n : Int)
  | jfloat (s : String)
  | jstr (s : String)
  | jarr (xs : List JVal)
  | jobj (kvs : List (String × JVal))

/-- Python `isinstance(v, int)`; `bool` is a subclass of `int`. -/
def pyIsInt : JVal → Bool
  | JVal.jint _ => true
  | JVal.jbool _ => true
  | _ => false

/-- The integer value of a Python `int` (with `True = 1`, `False = 0`). -/
def pyToInt : JVal → Int
  | JVal.jint n => n
  | JVal.jbool b => if b then 1 else 0
  | _ => 0

/-- Python `k in d` for a dict. -/
def hasKey (kvs : List (String × JVal)) (k : String) : Bool :=
  (kvs.lookup k).isSome

/-! ## `livox_adapter.py`: `validate_config`

A direct transcription of the validation routine, returning the `errors`
list it accumulates; `ConfigError` is raised exactly when this list is
nonempty. `_is_ipv4` (a thin wrapper over `socket.inet_aton`) is kept as
a parameter `isIPv4`, so every theorem below holds for the real address
predicate. -/

def requiredDeviceKeys : List String :=
  ["id", "lidar_ip", "host_ip", "cmd_data_port", "point_data_port", "imu_data_port"]

def deviceAllowedKeys : List String :=
  ["id", "lidar_ip", "host_ip", "cmd_data_port", "point_data_port",
   "imu_data_port", "ndjson_udp_port"]

def devicePortKeys : List String :=
  ["cmd_data_port", "point_data_port", "imu_data_port", "ndjson_udp_port"]

/-- Render `sorted(extra)` for the unknown-keys messages. -/
def renderKeys (ks : List String) : String :=
  String.intercalate ", " ((ks.dedup).mergeSort (fun a b => a ≤ b))

/-- The errors collected for `lidars[i]` (the body of the `for i, l` loop). -/
def deviceErrors (isIPv4 : String → Bool) (i : Nat) : JVal → List String
  | JVal.jobj kvs =>
      (requiredDeviceKeys.filterMap fun k =>
        if hasKey kvs k then none
        else some ("lidars[" ++ toString i ++ "]." ++ k ++ " is required"))
      ++ (match kvs.lookup "id" with
          | none => []
          | some (JVal.jstr s) =>
              if s = "" then
                ["lidars[" ++ toString i ++ "].id must be a non-empty string"]
              else []
          | some _ =>
              ["lidars[" ++ toString i ++ "].id must be a non-empty string"])
      ++ (["lidar_ip", "host_ip"].filterMap fun ipk =>
            match kvs.lookup ipk with
            | none => none
            | some (JVal.jstr s) =>
                if isIPv4 s then none
                else some ("lidars[" ++ toString i ++ "]." ++ ipk ++
                           " must be a valid IPv4 string")
            | some _ =>
                some ("lidars[" ++ toString i ++ "]." ++ ipk ++
                      " must be a valid IPv4 string"))
      ++ (devicePortKeys.filterMap fun pk =>
            match kvs.lookup pk with
            | none => none
            | some v =>
                if pyIsInt v && (1 ≤ pyToInt v && pyToInt v ≤ 65535) then none
                else some ("lidars[" ++ toString i ++ "]." ++ pk ++
                           " must be integer in [1,65535]"))
      ++ (let extra := (kvs.map Prod.fst).filter
            (fun k => !(deviceAllowedKeys.contains k))
          if extra.isEmpty then []
          else ["lidars[" ++ toString i ++ "] contains unknown keys: " ++
                renderKeys extra])
  | _ => ["lidars[" ++ toString i ++ "] must be an object"]

/-- The errors collected for the optional `bridge` block. -/
def bridgeErrors (b : List (String × JVal)) : List String :=
  (match b.lookup "stdout" with
   | none => []
   | some (JVal.jbool _) => []
   | some _ => ["bridge.stdout must be boolean"])
  ++ (match b.lookup "ndjson_udp_port" with
      | none => []
      | some v =>
          if pyIsInt v && (1 ≤ pyToInt v && pyToInt v ≤ 65535) then []
          else ["bridge.ndjson_udp_port must be integer in [1,65535]"])
  ++ (let extra := (b.map Prod.fst).filter
        (fun k => !(k = "stdout" || k = "ndjson_udp_port"))
      if extra.isEmpty then []
      else ["bridge contains unknown keys: " ++ renderKeys extra])

/-- `validate_config(cfg)`: the full `errors` list, in accumulation order. -/
def validate_config (isIPv4 : String → Bool) (cfg : List (String × JVal)) :
    List String :=
  (match cfg.lookup "lidars" with
   | some (JVal.jarr ls) =>
       if ls.isEmpty then ["'lidars' must be a non-empty array"]
       else (ls.enum.map (fun p => deviceErrors isIPv4 p.1 p.2)).flatten
   | some _ => ["'lidars' must be a non-empty array"]
   | none => ["'lidars' must be a non-empty array"])
  ++ (match cfg.lookup "bridge" with
      | none => []
      | some (JVal.jobj b) => bridgeErrors b
      | some _ => ["'bridge' must be an object"])
  ++ (if (cfg.map Prod.fst).all (fun k => k = "lidars" || k = "bridge") then []
      else ["top-level contains unknown keys"])

/-- `LivoxMid360Adapter._load_and_validate`: file missing or invalid
config raises `ConfigError` (= `Except.error`); otherwise the parsed
config is stored. -/
def load_and_validate (isIPv4 : String → Bool) (configExists : Bool)
    (parsed : List (String × JVal)) :
    Except String (List (String × JVal)) :=
  if !configExists then Except.error "Config file not found"
  else
    match validate_config isIPv4 parsed with
    | [] => Except.ok parsed
    | errs => Except.error (String.intercalate "; " errs)

/-! ## `livox_adapter.py`: `LivoxMid360Adapter` state

One structure mirrors the adapter's mutable fields. Process handles are
opaque ids; asyncio tasks are liveness booleans plus a counter of task
creations; WebSocket clients are opaque ids. Frames handed to
`asyncio.create_task(self._broadcast(msg))` are recorded in
`broadcastQueue`. -/

structure LivoxState where
  bridgeProc : Option Nat
  udpTask : Bool
  stdoutTask : Bool
  stopEvent : Bool
  useUdp : Bool
  spawnCount : Nat
  taskCount : Nat
  maxFrames : Nat
  maxStats : Nat
  frames : List JVal
  stats : List JVal
  broadcastQueue : List JVal
  clients : List Nat
  config : List (String × JVal)

/-- `LivoxMid360Adapter.__init__` (the validation-relevant part): the
object only comes into existence if `_load_and_validate` succeeds; no
process is spawned and no ingestion task is started at construction. -/
def initLivox (isIPv4 : String → Bool) (configExists : Bool)
    (parsed : List (String × JVal)) (useUdp : Bool)
    (maxFrames maxStats : Nat) : Except String LivoxState :=
  match load_and_validate isIPv4 configExists parsed with
  | Except.error e => Except.error e
  | Except.ok cfg =>
      Except.ok { bridgeProc := none, udpTask := false, stdoutTask := false
                  stopEvent := false, useUdp := useUdp
                  spawnCount := 0, taskCount := 0
                  maxFrames := maxFrames, maxStats := maxStats
                  frames := [], stats := [], broadcastQueue := []
                  clients := [], config := cfg }

/-- `LivoxMid360Adapter.start`: no-op when a process handle is present;
otherwise spawn (`spawn = Except.error` models `FileNotFoundError`,
re-raised as `RuntimeError`) and create exactly one ingestion task for
the configured transport. -/
def lv_start (spawn : Except Unit Nat) (st : LivoxState) :
    Except Unit LivoxState :=
  if st.bridgeProc.isSome then Except.ok st
  else
    match spawn with
    | Except.error _ => Except.error ()
    | Except.ok pid =>
        let st1 := { st with bridgeProc := some pid
                             spawnCount := st.spawnCount + 1 }
        if st.useUdp then
          Except.ok { st1 with udpTask := true, taskCount := st1.taskCount + 1 }
        else
          Except.ok { st1 with stdoutTask := true, taskCount := st1.taskCount + 1 }

/-- Outcome of the process-termination branch of `stop`. -/
inductive TermOutcome where
  | noProc
  | alreadyExited
  | graceful
  | killed
deriving DecidableEq

/-- `LivoxMid360Adapter.stop`: set the stop event, cancel the ingestion
tasks, then terminate the process — `pollRunning` is `poll() is None`,
`waitOk` tells whether the graceful 2s wait succeeded (otherwise the
process is killed). The handle is cleared on every path. -/
def lv_stop (pollRunning waitOk : Bool) (st : LivoxState) :
    LivoxState × TermOutcome :=
  let st1 := { st with stopEvent := true, udpTask := false, stdoutTask := false }
  match st1.bridgeProc with
  | none => ({ st1 with bridgeProc := none }, TermOutcome.noProc)
  | some _ =>
      if pollRunning then
        if waitOk then ({ st1 with bridgeProc := none }, TermOutcome.graceful)
        else ({ st1 with bridgeProc := none }, TermOutcome.killed)
      else ({ st1 with bridgeProc := none }, TermOutcome.alreadyExited)

/-- Python `str.strip()`: drop whitespace from both ends (computed
structurally over the character list). -/
def pyStrip (s : String) : String :=
  ⟨((s.data.dropWhile Char.isWhitespace).reverse.dropWhile
      Char.isWhitespace).reverse⟩

/-- The stat/log ring entry built for an undecodable line:
`{"type": "log", "ts": time.time(), "msg": line}`. -/
def logEntry (now : String) (l : String) : JVal :=
  JVal.jobj [("type", JVal.jstr "log"), ("ts", JVal.jfloat now),
             ("msg", JVal.jstr l)]

/-- `LivoxMid360Adapter._process_line`: strip, ignore blanks, decode
(`parse` stands for `json.loads`; `none` = `JSONDecodeError`), then
route by the declared `type`. A successfully decoded non-object makes
`msg.get` raise `AttributeError`, modelled as `Except.error`. -/
def process_line (parse : String → Option JVal) (now : String)
    (st : LivoxState) (line : String) : Except Unit LivoxState :=
  let l := pyStrip line
  if l = "" then Except.ok st
  else
    match parse l with
    | none =>
        Except.ok { st with
          stats := dequeAppend st.maxStats st.stats (logEntry now l) }
    | some msg =>
        match msg with
        | JVal.jobj kvs =>
            match kvs.lookup "type" with
            | some (JVal.jstr t) =>
                if t = "frame" then
                  Except.ok { st with
                    frames := dequeAppend st.maxFrames st.frames msg
                    broadcastQueue := st.broadcastQueue ++ [msg] }
                else
                  Except.ok { st with
                    stats := dequeAppend st.maxStats st.stats msg }
            | _ =>
                Except.ok { st with
                  stats := dequeAppend st.maxStats st.stats msg }
        | _ => Except.error ()

/-- Result of one `_broadcast` pass: who received the frame, whether the
payload was serialized (`json.dumps`), and the surviving client set. -/
structure BroadcastResult where
  delivered : List Nat
  serialized : Bool
  clients : List Nat
deriving DecidableEq

/-- `LivoxMid360Adapter._broadcast`: early return on an empty client set
(before `json.dumps`); otherwise send to a snapshot of the clients,
collecting the endpoints whose send raised (`fails`), then remove each
dead endpoint (`list.remove` guarded by `except ValueError: pass`). -/
def lv_broadcast (fails : Nat → Bool) (clients : List Nat) : BroadcastResult :=
  if clients.isEmpty then ⟨[], false, clients⟩
  else
    let dead := clients.filter fails
    ⟨clients.filter (fun c => !(fails c)), true, dead.foldl removeFirst clients⟩

/-- `LivoxMid360Adapter.recent_frames(count)`. -/
def recent_frames (st : LivoxState) (count : Int) : List JVal :=
  if count ≤ 0 then []
  else pySliceFrom st.frames (-count)

/-! ## `sensor_base.py` / `sensor_manager.py`: thread lifecycle

`start`/`stop` manage a worker thread (`self._thread`) guarded by an
`is_alive` check; `stop` sets the stop event and joins with a 2 s
timeout, so the loop may outlive `stop`. The model keeps the liveness of
every thread ever spawned, most recent first (`_thread` is the head);
loop exit (the run wrapper returning or crashing) is an environment
event that may strike any thread. -/

structure SupState where
  threads : List Bool
  stopFlag : Bool
deriving DecidableEq

def SupState.init : SupState := ⟨[], false⟩

/-- `AbstractSensorAdapter.start`: return if the current thread is
alive; otherwise clear the stop event and spawn a fresh thread. -/
def sup_start (s : SupState) : SupState :=
  if s.threads.headD false then s
  else { threads := true :: s.threads, stopFlag := false }

/-- `AbstractSensorAdapter.stop`: set the stop event and join with a
bounded timeout — joining does not by itself end the loop. -/
def sup_stop (s : SupState) : SupState :=
  { s with stopFlag := true }

/-- The loop of thread `i` exits (run returned, observed the stop flag,
or crashed into the supervisor's handler). -/
def sup_exit (i : Nat) (s : SupState) : SupState :=
  { s with threads := s.threads.set i false }

inductive SupEvent where
  | start
  | stop
  | exitAt (i : Nat)
deriving DecidableEq

def supStep (s : SupState) : SupEvent → SupState
  | SupEvent.start => sup_start s
  | SupEvent.stop => sup_stop s
  | SupEvent.exitAt i => sup_exit i s

def supRun (s : SupState) : List SupEvent → SupState
  | [] => s
  | e :: es => supRun (supStep s e) es

/-- Number of concurrently live acquisition loops of one adapter. -/
def liveLoops (s : SupState) : Nat :=
  s.threads.count true

/-! `SensorManager.register` over a heap of adapter objects: the
registry maps sensor id → heap index (a Python dict assignment
overwrites), and `register` starts the new adapter — it never touches
the adapter previously registered under the same id. -/

structure RegSensor where
  sensor_id : String
  sup : SupState
deriving DecidableEq

structure RegWorld where
  heap : List RegSensor
  registry : List (String × Nat)
deriving DecidableEq

/-- Dict assignment `d[k] = v`: replace the binding if the key exists,
else append. -/
def dictSet (k : String) (v : Nat) : List (String × Nat) → List (String × Nat)
  | [] => [(k, v)]
  | (k0, v0) :: rest =>
      if k0 = k then (k, v) :: rest else (k0, v0) :: dictSet k v rest

/-- `SensorManager.register(adapter)` for the heap object at `idx`:
`self.adapters[adapter.sensor_id] = adapter; adapter.start()`. -/
def reg_register (w : RegWorld) (idx : Nat) : RegWorld :=
  match w.heap.get? idx with
  | none => w
  | some a =>
      { heap := w.heap.set idx { a with sup := sup_start a.sup }
        registry := dictSet a.sensor_id idx w.registry }

/-! ## Helper lemmas -/

theorem lastN_of_le (n : Nat) (l : List α) (h : l.length ≤ n) :
    lastN n l = l := by
  unfold lastN
  rw [Nat.sub_eq_zero_of_le h]
  exact List.drop_zero l

theorem pySliceFrom_negNat (xs : List α) (n : Nat) (h : 1 ≤ n) :
    pySliceFrom xs (-(n : Int)) = lastN n xs := by
  unfold pySliceFrom lastN
  rw [if_pos (by omega : -(n : Int) < 0)]
  congr 1
  omega

theorem pySliceFrom_zero (xs : List α) : pySliceFrom xs 0 = xs := by
  simp [pySliceFrom]

/-- The three fields of `publish` relevant everywhere: the callback's
outcome never changes the state transition. -/
theorem publish_fields (st : AdapterState α) (ts : String) (data : α) :
    publish st ts data =
      { st with latest := some ⟨st.sensor_id, ts, data⟩
                ring := dequeAppend st.ringSize st.ring ⟨st.sensor_id, ts, data⟩ } := by
  unfold publish
  dsimp only
  split
  · rfl
  · split <;> rfl

/-! ## Claim theorems -/

/-- C7: `publish(value)` has no error conditions and always succeeds
(it is a total function into the new state): it sets `latest` and
appends to the ring, and the observable outcome is the same for every
`on_sample` callback — absent, succeeding, or raising — so a raising
callback never aborts the publish and no exception propagates. -/
theorem publish_always_succeeds (α : Type) (st : AdapterState α)
    (ts : String) (data : α) :
    (publish st ts data).latest = some ⟨st.sensor_id, ts, data⟩ ∧
    (publish st ts data).ring =
      dequeAppend st.ringSize st.ring ⟨st.sensor_id, ts, data⟩ ∧
    (∀ cb : Sample α → Except Unit Unit,
        publish { st with on_sample := some cb } ts data =
          { publish st ts data with on_sample := some cb }) := by
  refine ⟨?_, ?_, ?_⟩
  · rw [publish_fields]
  · rw [publish_fields]
  · intro cb
    rw [publish_fields, publish_fields]

/-- C10: `recent_frames(count)` returns the empty list for every
`count ≤ 0`, whatever the frames ring holds. -/
theorem recent_frames_nonpos (st : LivoxState) (count : Int)
    (h : count ≤ 0) : recent_frames st count = [] := by
  simp [recent_frames, h]

/-- A bridge state with a nonempty frames ring and no process handle. -/
def lvDemo : LivoxState :=
  { bridgeProc := none, udpTask := false, stdoutTask := false
    stopEvent := false, useUdp := true, spawnCount := 0, taskCount := 0
    maxFrames := 60, maxStats := 300
    frames := [JVal.jint 1, JVal.jint 2], stats := [], broadcastQueue := []
    clients := [], config := [] }

/-- Witness for C10 at a nonempty frames ring and `count = -3`. -/
theorem recent_frames_nonpos_witness :
    (-3 : Int) ≤ 0 ∧ recent_frames lvDemo (-3) = [] :=
  ⟨by decide, recent_frames_nonpos lvDemo (-3) (by decide)⟩

/-- C8: `start()` with a live process handle is a no-op — no second
process is spawned and no second ingestion task is started — and
`stop()` clears the process handle on every termination path (graceful
wait, forced kill after timeout, process already exited), so a
subsequent `start()` spawns afresh instead of finding a stale handle. -/
theorem bridge_start_stop_handles (st : LivoxState) (p : Nat)
    (spawn : Except Unit Nat) (po wo : Bool) :
    (st.bridgeProc = some p → lv_start spawn st = Except.ok st) ∧
    (lv_stop po wo st).1.bridgeProc = none ∧
    (∀ pid st', lv_start (Except.ok pid) (lv_stop po wo st).1 = Except.ok st' →
        st'.bridgeProc = some pid ∧ st'.spawnCount = st.spawnCount + 1) := by
  refine ⟨?_, ?_, ?_⟩
  · intro h
    simp [lv_start, h]
  · unfold lv_stop
    dsimp only
    split
    · rfl
    · split
      · split <;> rfl
      · rfl
  · intro pid st' h
    have hnone : (lv_stop po wo st).1.bridgeProc = none := by
      unfold lv_stop
      dsimp only
      split
      · rfl
      · split
        · split <;> rfl
        · rfl
    have hcount : (lv_stop po wo st).1.spawnCount = st.spawnCount := by
      unfold lv_stop
      dsimp only
      split
      · rfl
      · split
        · split <;> rfl
        · rfl
    unfold lv_start at h
    rw [hnone] at h
    simp at h
    by_cases hu : (lv_stop po wo st).1.useUdp
    · rw [if_pos hu] at h
      cases h
      exact ⟨rfl, by simpa using hcount⟩
    · rw [if_neg hu] at h
      cases h
      exact ⟨rfl, by simpa using hcount⟩

/-- A bridge state holding a live process handle. -/
def lvLive : LivoxState :=
  { lvDemo with bridgeProc := some 7, udpTask := true, spawnCount := 1
                taskCount := 1 }

/-- Witness for C8: with handle `7` live, `start` is a no-op, and `stop`
(with a timed-out graceful wait, forcing a kill) clears the handle. -/
theorem bridge_start_stop_handles_witness :
    lv_start (Except.ok 99) lvLive = Except.ok lvLive ∧
    (lv_stop true false lvLive).1.bridgeProc = none :=
  ⟨(bridge_start_stop_handles lvLive 7 (Except.ok 99) true false).1 rfl,
   (bridge_start_stop_handles lvLive 7 (Except.ok 99) true false).2.1⟩

/-- C2 (amended): when the sensor id resolves to an adapter, for every
`limit ≥ 1` `history(limit)` returns exactly the most recent
`min(limit, len)` retained samples, newest last, in insertion order;
`history(0)` returns all retained samples — the Python slice
`list(ring)[-0:]` is the whole list — not zero samples. -/
theorem mgr_history_limit (α : Type) (m : SensorManagerSt α) (sid : String)
    (a : AdapterState α) (limit : Int)
    (h : m.adapters.lookup sid = some a) :
    (1 ≤ limit →
        mgr_history m sid limit = lastN limit.toNat a.ring ∧
        (mgr_history m sid limit).length = min limit.toNat a.ring.length) ∧
    mgr_history m sid 0 = a.ring := by
  constructor
  · intro hl
    have h1 : 1 ≤ limit.toNat := by omega
    have he : -limit = -((limit.toNat : Nat) : Int) := by omega
    constructor
    · unfold mgr_history
      rw [h, he]
      exact pySliceFrom_negNat a.ring limit.toNat h1
    · unfold mgr_history
      rw [h]
      dsimp only
      rw [he, pySliceFrom_negNat a.ring limit.toNat h1]
      exact lastN_length limit.toNat a.ring
  · unfold mgr_history
    rw [h]
    exact pySliceFrom_zero a.ring

/-- A manager holding one adapter that retains a single sample. -/
def demoSample : Sample Nat := ⟨"x", "t0", 7⟩

/-- One-adapter manager used by the history counterexamples. -/
def demoMgr : SensorManagerSt Nat :=
  ⟨[("x", { sensor_id := "x", kind := "k", ringSize := 4
            ring := [demoSample], latest := some demoSample
            on_sample := none })]⟩

/-- C2 counterexample: with one retained sample, `history(0)` returns
that sample, not `min(0, len) = 0` samples. -/
theorem mgr_history_zero_cex :
    mgr_history demoMgr "x" 0 = [demoSample] ∧
    mgr_history demoMgr "x" 0 ≠ [] := by
  constructor
  · rfl
  · intro h
    simp [mgr_history, demoMgr, pySliceFrom] at h

/-- Witness for C2 (amended) at `limit = 1` on the one-sample ring. -/
theorem mgr_history_limit_witness :
    mgr_history demoMgr "x" 1 = [demoSample] ∧
    mgr_history demoMgr "x" 0 = [demoSample] := by
  have h := mgr_history_limit Nat demoMgr "x"
    { sensor_id := "x", kind := "k", ringSize := 4
      ring := [demoSample], latest := some demoSample, on_sample := none }
    1 rfl
  exact ⟨(h.1 (by decide)).1, h.2⟩

/-- C9 (amended): `latest` queries for an unknown sensor id, and for a
registered sensor that has published nothing, surface as 404 "not
found"; a `history` query for an unknown sensor id instead returns a
successful response with an empty sample list — not "not found". -/
theorem routes_absent (α : Type) (m : SensorManagerSt α) (sid : String)
    (limit : Int) :
    (m.adapters.lookup sid = none →
        route_latest m sid = Except.error 404 ∧
        route_history m sid limit = Except.ok ⟨sid, []⟩) ∧
    (∀ a : AdapterState α, m.adapters.lookup sid = some a → a.latest = none →
        route_latest m sid = Except.error 404) := by
  constructor
  · intro h
    constructor
    · simp [route_latest, mgr_latest, h]
    · simp [route_history, mgr_history, h]
  · intro a h hl
    simp [route_latest, mgr_latest, h, hl]

/-- C9 counterexample: on an empty registry, the history route answers
an unknown sensor id with a successful empty `HistoryResponse` (HTTP
200), not with a "not found" error. -/
theorem history_unknown_ok_cex :
    route_history (⟨[]⟩ : SensorManagerSt Nat) "ghost" 100 =
      Except.ok ⟨"ghost", []⟩ := rfl

/-- A manager with one registered adapter that has published nothing. -/
def freshMgr : SensorManagerSt Nat := ⟨[("s", initAdapter "s" "kind" 4)]⟩

/-- Witness for C9 (amended): unknown id → latest 404 and history 200
with `[]`; registered-but-empty sensor → latest 404. -/
theorem routes_absent_witness :
    (route_latest freshMgr "ghost" = Except.error 404 ∧
     route_history freshMgr "ghost" 5 = Except.ok ⟨"ghost", []⟩) ∧
    route_latest freshMgr "s" = Except.error 404 :=
  ⟨(routes_absent Nat freshMgr "ghost" 5).1 rfl,
   (routes_absent Nat freshMgr "s" 5).2 (initAdapter "s" "kind" 4) rfl rfl⟩

/-! ### Broadcast pruning lemmas -/

theorem count_removeFirst (xs : List Nat) (d x : Nat) :
    (removeFirst xs d).count x = xs.count x - (if d = x then 1 else 0) := by
  induction xs with
  | nil => simp [removeFirst]
  | cons y ys ih =>
      unfold removeFirst
      by_cases hyd : y = d
      · subst hyd
        simp only [beq_self_eq_true, if_true, List.count_cons]
        by_cases hdx : y = x <;> simp [hdx]
      · have h1 : (y == d) = false := by simpa using hyd
        simp only [h1, Bool.false_eq_true, if_false, List.count_cons, ih]
        by_cases hdx : d = x
        · have hyx : y ≠ x := fun h => hyd (h.trans hdx.symm)
          have h2 : (y == x) = false := by simpa using hyx
          simp [hdx, h2]
          try omega
        · simp [hdx]
          try omega

theorem notMem_foldl_removeFirst (ds : List Nat) :
    ∀ (xs : List Nat) (x : Nat), xs.count x ≤ ds.count x →
      x ∉ ds.foldl removeFirst xs := by
  induction ds with
  | nil =>
      intro xs x h
      simp only [List.count_nil, Nat.le_zero] at h
      simpa [List.foldl] using List.count_eq_zero.mp h
  | cons d ds ih =>
      intro xs x h
      simp only [List.foldl]
      apply ih
      rw [count_removeFirst]
      simp [List.count_cons] at h
      by_cases hdx : d = x
      · simp [hdx] at h ⊢
        omega
      · have : ¬ (d == x) := by simpa using hdx
        simp [this, hdx] at h ⊢
        omega

/-- C6: one `_broadcast` pass delivers to exactly the clients whose push
succeeds (so one endpoint's failure never blocks the others), removes
every failing endpoint from the surviving client set (so it receives no
later broadcast), and on an empty client set returns before any
serialization work. -/
theorem broadcast_isolation (fails : Nat → Bool) (clients : List Nat)
    (hg hb : Nat) :
    (lv_broadcast fails clients).delivered =
        clients.filter (fun c => !(fails c)) ∧
    (hg ∈ clients → fails hg = false →
        hg ∈ (lv_broadcast fails clients).delivered) ∧
    (hb ∈ clients → fails hb = true →
        hb ∉ (lv_broadcast fails clients).clients) ∧
    (clients = [] →
        (lv_broadcast fails clients).serialized = false ∧
        (lv_broadcast fails clients).delivered = []) := by
  refine ⟨?_, ?_, ?_, ?_⟩
  · unfold lv_broadcast
    split
    · simp_all
    · rfl
  · intro hmem hok
    unfold lv_broadcast
    split
    · simp_all
    · simp [List.mem_filter, hmem, hok]
  · intro hmem hfail
    unfold lv_broadcast
    split
    · simp_all
    · dsimp only
      apply notMem_foldl_removeFirst
      rw [List.count_filter]
      simp [hfail]
  · intro h
    subst h
    exact ⟨rfl, rfl⟩

/-- `_broadcast` witness scenario: client 1's push fails, client 2's
succeeds. -/
def demoFails : Nat → Bool := fun n => n == 1

/-- Witness for C6: with clients `[1, 2]` and endpoint 1 failing, the
healthy endpoint 2 is delivered to and endpoint 1 is pruned. -/
theorem broadcast_isolation_witness :
    2 ∈ (lv_broadcast demoFails [1, 2]).delivered ∧
    1 ∉ (lv_broadcast demoFails [1, 2]).clients :=
  ⟨(broadcast_isolation demoFails [1, 2] 2 1).2.1 (by decide) (by decide),
   (broadcast_isolation demoFails [1, 2] 2 1).2.2.1 (by decide) (by decide)⟩

/-- The declared `type` tag of a decoded record, when it is an object. -/
def jTag (v : JVal) : Option JVal :=
  match v with
  | JVal.jobj kvs => kvs.lookup "type"
  | _ => none

/-- C5: `_process_line` ignores blank lines; a line that fails decode is
appended to the stat/log ring tagged `"type": "log"`, leaves the frames
ring (hence `recent_frames`) and the broadcast hand-off untouched, and
raises nothing; a decoded record with declared type `"frame"` is
appended to the frames ring and handed to `_broadcast`; a record with
any other declared type (including none) goes to the stats ring only. -/
theorem process_line_classifier (parse : String → Option JVal) (now : String)
    (st : LivoxState) (line : String) :
    (pyStrip line = "" → process_line parse now st line = Except.ok st) ∧
    (pyStrip line ≠ "" → parse (pyStrip line) = none →
       process_line parse now st line =
         Except.ok { st with
           stats := dequeAppend st.maxStats st.stats (logEntry now (pyStrip line)) } ∧
       jTag (logEntry now (pyStrip line)) = some (JVal.jstr "log") ∧
       (∀ c, recent_frames { st with
           stats := dequeAppend st.maxStats st.stats (logEntry now (pyStrip line)) } c
         = recent_frames st c)) ∧
    (∀ kvs, pyStrip line ≠ "" → parse (pyStrip line) = some (JVal.jobj kvs) →
       kvs.lookup "type" = some (JVal.jstr "frame") →
       process_line parse now st line =
         Except.ok { st with
           frames := dequeAppend st.maxFrames st.frames (JVal.jobj kvs)
           broadcastQueue := st.broadcastQueue ++ [JVal.jobj kvs] }) ∧
    (∀ kvs, pyStrip line ≠ "" → parse (pyStrip line) = some (JVal.jobj kvs) →
       kvs.lookup "type" ≠ some (JVal.jstr "frame") →
       process_line parse now st line =
         Except.ok { st with
           stats := dequeAppend st.maxStats st.stats (JVal.jobj kvs) }) := by
  refine ⟨?_, ?_, ?_, ?_⟩
  · intro h
    simp [process_line, h]
  · intro hne hparse
    refine ⟨?_, rfl, fun c => rfl⟩
    simp [process_line, hne, hparse]
  · intro kvs hne hparse htype
    simp [process_line, hne, hparse, htype]
  · intro kvs hne hparse htype
    unfold process_line
    rw [if_neg hne, hparse]
    dsimp only
    cases hl : kvs.lookup "type" with
    | none => rfl
    | some v =>
        cases v with
        | jstr t =>
            have ht : ¬ t = "frame" := by
              intro h
              exact htype (by rw [hl, h])
            simp [ht]
        | jnull => rfl
        | jbool b => rfl
        | jint n => rfl
        | jfloat s => rfl
        | jarr xs => rfl
        | jobj o => rfl

/-- Witness for C5: a state machine check on each classifier branch with
a concrete two-line parser. -/
def demoParse : String → Option JVal := fun l =>
  if l = "f" then some (JVal.jobj [("type", JVal.jstr "frame")])
  else if l = "s" then some (JVal.jobj [("type", JVal.jstr "imu_stat")])
  else none

/-- Witness for C5 on the empty bridge state `lvDemo` with `frames`
preloaded: blank line no-op, undecodable line to the stat/log ring,
frame line to frames + broadcast, stat line to stats. -/
theorem process_line_classifier_witness :
    process_line demoParse "t1" lvDemo "  " = Except.ok lvDemo ∧
    process_line demoParse "t1" lvDemo "bad json" =
      Except.ok { lvDemo with
        stats := dequeAppend lvDemo.maxStats lvDemo.stats
          (logEntry "t1" "bad json") } ∧
    process_line demoParse "t1" lvDemo "f" =
      Except.ok { lvDemo with
        frames := dequeAppend lvDemo.maxFrames lvDemo.frames
          (JVal.jobj [("type", JVal.jstr "frame")])
        broadcastQueue := lvDemo.broadcastQueue ++
          [JVal.jobj [("type", JVal.jstr "frame")]] } ∧
    process_line demoParse "t1" lvDemo "s" =
      Except.ok { lvDemo with
        stats := dequeAppend lvDemo.maxStats lvDemo.stats
          (JVal.jobj [("type", JVal.jstr "imu_stat")]) } := by
  refine ⟨?_, ?_, ?_, ?_⟩
  · exact (process_line_classifier demoParse "t1" lvDemo "  ").1 rfl
  · exact ((process_line_classifier demoParse "t1" lvDemo "bad json").2.1
      (by decide) rfl).1
  · exact (process_line_classifier demoParse "t1" lvDemo "f").2.2.1
      [("type", JVal.jstr "frame")] (by decide) rfl rfl
  · exact (process_line_classifier demoParse "t1" lvDemo "s").2.2.2
      [("type", JVal.jstr "imu_stat")] (by decide) rfl
      (by intro h; simp at h)

/-! ### Supervisor lifecycle lemmas -/

/-- The structural invariant behind single-spawn: every thread other
than the current one (`self._thread`, the head) is dead. -/
def tailDead (s : SupState) : Prop :=
  ∀ b ∈ s.threads.tail, b = false

theorem tailDead_init : tailDead SupState.init := by
  intro b hb
  simp [SupState.init] at hb

theorem tailDead_step (s : SupState) (e : SupEvent) (h : tailDead s) :
    tailDead (supStep s e) := by
  cases e with
  | start =>
      unfold supStep sup_start
      by_cases hd : s.threads.headD false
      · rw [if_pos hd]
        exact h
      · rw [if_neg hd]
        intro b hb
        cases hts : s.threads with
        | nil => simp [hts] at hb
        | cons x t =>
            rw [hts] at hb
            simp at hb
            rcases hb with hb | hb
            · subst hb
              rw [hts] at hd
              simpa using hd
            · exact h b (by rw [hts]; simpa using hb)
  | stop =>
      unfold supStep sup_stop
      exact h
  | exitAt i =>
      unfold supStep sup_exit
      intro b hb
      cases hts : s.threads with
      | nil => simp [hts] at hb
      | cons x t =>
          rw [hts] at hb
          cases i with
          | zero =>
              simp [List.set] at hb
              exact h b (by rw [hts]; simpa using hb)
          | succ j =>
              simp [List.set] at hb
              rcases List.mem_or_eq_of_mem_set hb with hm | hm
              · exact h b (by rw [hts]; simpa using hm)
              · exact hm

theorem tailDead_run (evs : List SupEvent) :
    ∀ s : SupState, tailDead s → tailDead (supRun s evs) := by
  induction evs with
  | nil => intro s h; exact h
  | cons e es ih =>
      intro s h
      exact ih (supStep s e) (tailDead_step s e h)

theorem liveLoops_le_one_of_tailDead (s : SupState) (h : tailDead s) :
    liveLoops s ≤ 1 := by
  unfold liveLoops
  cases hts : s.threads with
  | nil => simp
  | cons x t =>
      have ht : t.count true = 0 := by
        rw [List.count_eq_zero]
        intro hmem
        have := h true (by rw [hts]; simpa using hmem)
        simp at this
      rw [List.count_cons, ht]
      by_cases hx : x = true <;> simp [hx]

/-- C3 (amended): for one adapter, any sequence of `start`/`stop`/loop
exit events leaves at most one live acquisition loop (`start` while the
current thread is alive is a no-op, so stop-then-start never
double-spawns); but `SensorManager.register` only overwrites the
registry entry and starts the new adapter — it never touches any other
adapter object, in particular it does not stop a still-live adapter
previously registered under the same id, so two live adapters can share
an id. -/
theorem lifecycle_single_loop :
    (∀ evs : List SupEvent, liveLoops (supRun SupState.init evs) ≤ 1) ∧
    (∀ s : SupState, s.threads.headD false = true → sup_start s = s) ∧
    (∀ (w : RegWorld) (idx j : Nat), j ≠ idx →
        (reg_register w idx).heap.get? j = w.heap.get? j) := by
  refine ⟨?_, ?_, ?_⟩
  · intro evs
    exact liveLoops_le_one_of_tailDead _ (tailDead_run evs SupState.init tailDead_init)
  · intro s h
    unfold sup_start
    rw [if_pos h]
  · intro w idx j hj
    unfold reg_register
    cases h : w.heap.get? idx with
    | none => rfl
    | some a =>
        dsimp only
        simp only [List.get?_eq_getElem?]
        exact List.getElem?_set_ne (Ne.symm hj)

/-- Two freshly constructed adapter objects sharing the id `"x"`. -/
def regDemo : RegWorld :=
  ⟨[⟨"x", SupState.init⟩, ⟨"x", SupState.init⟩], []⟩

/-- C3 counterexample: register adapter 0 under id `"x"` (its loop goes
live), then register adapter 1 under the same id while adapter 0 is
still live: afterwards both heap objects carry id `"x"` and each has one
live acquisition loop — the code never stopped the first adapter. -/
theorem register_two_live_cex :
    ((reg_register (reg_register regDemo 0) 1).heap.get? 0).map
        (fun a => (a.sensor_id, liveLoops a.sup)) = some ("x", 1) ∧
    ((reg_register (reg_register regDemo 0) 1).heap.get? 1).map
        (fun a => (a.sensor_id, liveLoops a.sup)) = some ("x", 1) := by
  constructor <;> rfl

/-- Witness for C3 (amended): a stop-then-start trace keeps at most one
live loop, and `start` on an already-running adapter is a no-op. -/
theorem lifecycle_single_loop_witness :
    liveLoops (supRun SupState.init
      [SupEvent.start, SupEvent.stop, SupEvent.start]) ≤ 1 ∧
    sup_start ⟨[true], false⟩ = ⟨[true], false⟩ :=
  ⟨lifecycle_single_loop.1 [SupEvent.start, SupEvent.stop, SupEvent.start],
   lifecycle_single_loop.2.1 ⟨[true], false⟩ rfl⟩

/-! ### Configuration validation lemmas -/

theorem validate_mem_of_device (isIPv4 : String → Bool)
    (cfg : List (String × JVal)) (ls : List JVal) (i : Nat) (x : JVal)
    (e : String) (hl : cfg.lookup "lidars" = some (JVal.jarr ls))
    (hg : ls.get? i = some x) (he : e ∈ deviceErrors isIPv4 i x) :
    e ∈ validate_config isIPv4 cfg := by
  unfold validate_config
  rw [hl]
  dsimp only
  apply List.mem_append_left
  apply List.mem_append_left
  have hne : ¬ ls.isEmpty = true := by
    cases ls with
    | nil => simp at hg
    | cons y ys => simp
  rw [if_neg hne]
  rw [List.mem_flatten]
  refine ⟨deviceErrors isIPv4 i x, ?_, he⟩
  rw [List.mem_map]
  refine ⟨(i, x), ?_, rfl⟩
  rw [List.mk_mem_enum_iff_getElem?, ← List.get?_eq_getElem?]
  exact hg

theorem validate_mem_of_bridge (isIPv4 : String → Bool)
    (cfg : List (String × JVal)) (b : List (String × JVal)) (e : String)
    (hb : cfg.lookup "bridge" = some (JVal.jobj b))
    (he : e ∈ bridgeErrors b) :
    e ∈ validate_config isIPv4 cfg := by
  unfold validate_config
  rw [hb]
  apply List.mem_append_left
  exact List.mem_append_right _ he

theorem validate_mem_of_top (isIPv4 : String → Bool)
    (cfg : List (String × JVal)) (k : String) (v : JVal)
    (hk : (k, v) ∈ cfg) (h1 : k ≠ "lidars") (h2 : k ≠ "bridge") :
    "top-level contains unknown keys" ∈ validate_config isIPv4 cfg := by
  unfold validate_config
  apply List.mem_append_right
  have hall : ¬ ((cfg.map Prod.fst).all fun k => k = "lidars" || k = "bridge") = true := by
    intro hcontra
    rw [List.all_eq_true] at hcontra
    have hkmem : k ∈ cfg.map Prod.fst := List.mem_map.mpr ⟨(k, v), hk, rfl⟩
    have := hcontra k hkmem
    simp [h1, h2] at this
  rw [if_neg hall]
  simp

/-- C4: a configuration with a missing required device field, a port
field that is not an integer in `[1, 65535]` (device-level or
bridge-level `ndjson_udp_port`), an unknown key at any level (device,
bridge, or top level), or an empty `lidars` list fails validation —
each defect alone makes the error list nonempty — and then adapter
construction (`_load_and_validate` inside `__init__`) raises
`ConfigError`: no adapter state ever exists for such a configuration,
so `start` (the only process-spawn site) and the ingestion socket bind
(inside the post-`start` UDP listener) are unreachable. For the empty
device list, the surfaced error list contains
`'lidars' must be a non-empty array`. -/
theorem validate_config_rejects (isIPv4 : String → Bool)
    (cfg : List (String × JVal)) :
    (∀ (ls : List JVal) (i : Nat) (kvs : List (String × JVal)) (k : String),
        cfg.lookup "lidars" = some (JVal.jarr ls) →
        ls.get? i = some (JVal.jobj kvs) →
        k ∈ requiredDeviceKeys → kvs.lookup k = none →
        validate_config isIPv4 cfg ≠ []) ∧
    (∀ (ls : List JVal) (i : Nat) (kvs : List (String × JVal))
        (pk : String) (v : JVal),
        cfg.lookup "lidars" = some (JVal.jarr ls) →
        ls.get? i = some (JVal.jobj kvs) →
        pk ∈ devicePortKeys → kvs.lookup pk = some v →
        ¬ (pyIsInt v = true ∧ 1 ≤ pyToInt v ∧ pyToInt v ≤ 65535) →
        validate_config isIPv4 cfg ≠ []) ∧
    (∀ (b : List (String × JVal)) (v : JVal),
        cfg.lookup "bridge" = some (JVal.jobj b) →
        b.lookup "ndjson_udp_port" = some v →
        ¬ (pyIsInt v = true ∧ 1 ≤ pyToInt v ∧ pyToInt v ≤ 65535) →
        validate_config isIPv4 cfg ≠ []) ∧
    (∀ (k : String) (v : JVal), (k, v) ∈ cfg → k ≠ "lidars" → k ≠ "bridge" →
        validate_config isIPv4 cfg ≠ []) ∧
    (∀ (ls : List JVal) (i : Nat) (kvs : List (String × JVal))
        (k : String) (v : JVal),
        cfg.lookup "lidars" = some (JVal.jarr ls) →
        ls.get? i = some (JVal.jobj kvs) →
        (k, v) ∈ kvs → ¬ deviceAllowedKeys.contains k →
        validate_config isIPv4 cfg ≠ []) ∧
    (∀ (b : List (String × JVal)) (k : String) (v : JVal),
        cfg.lookup "bridge" = some (JVal.jobj b) →
        (k, v) ∈ b → k ≠ "stdout" → k ≠ "ndjson_udp_port" →
        validate_config isIPv4 cfg ≠ []) ∧
    (cfg.lookup "lidars" = some (JVal.jarr []) →
        "'lidars' must be a non-empty array" ∈ validate_config isIPv4 cfg) ∧
    (validate_config isIPv4 cfg ≠ [] →
        ∀ (ce useUdp : Bool) (mf ms : Nat) (st : LivoxState),
          initLivox isIPv4 ce cfg useUdp mf ms ≠ Except.ok st) := by
  refine ⟨?_, ?_, ?_, ?_, ?_, ?_, ?_, ?_⟩
  · intro ls i kvs k hl hg hreq hlk
    apply List.ne_nil_of_mem
    apply validate_mem_of_device isIPv4 cfg ls i (JVal.jobj kvs)
      ("lidars[" ++ toString i ++ "]." ++ k ++ " is required") hl hg
    unfold deviceErrors
    apply List.mem_append_left
    apply List.mem_append_left
    apply List.mem_append_left
    apply List.mem_append_left
    rw [List.mem_filterMap]
    refine ⟨k, hreq, ?_⟩
    simp [hasKey, hlk]
  · intro ls i kvs pk v hl hg hpk hlk hbad
    apply List.ne_nil_of_mem
    apply validate_mem_of_device isIPv4 cfg ls i (JVal.jobj kvs)
      ("lidars[" ++ toString i ++ "]." ++ pk ++ " must be integer in [1,65535]")
      hl hg
    unfold deviceErrors
    apply List.mem_append_left
    apply List.mem_append_right
    rw [List.mem_filterMap]
    refine ⟨pk, hpk, ?_⟩
    rw [hlk]
    dsimp only
    rw [if_neg ?_]
    intro hcond
    simp only [Bool.and_eq_true, decide_eq_true_eq] at hcond
    exact hbad ⟨hcond.1, hcond.2.1, hcond.2.2⟩
  · intro b v hb hlk hbad
    apply List.ne_nil_of_mem
    apply validate_mem_of_bridge isIPv4 cfg b
      "bridge.ndjson_udp_port must be integer in [1,65535]" hb
    unfold bridgeErrors
    apply List.mem_append_left
    apply List.mem_append_right
    rw [hlk]
    dsimp only
    rw [if_neg ?_]
    · simp
    · intro hcond
      simp only [Bool.and_eq_true, decide_eq_true_eq] at hcond
      exact hbad ⟨hcond.1, hcond.2.1, hcond.2.2⟩
  · intro k v hk h1 h2
    exact List.ne_nil_of_mem (validate_mem_of_top isIPv4 cfg k v hk h1 h2)
  · intro ls i kvs k v hl hg hk hka
    apply List.ne_nil_of_mem
    apply validate_mem_of_device isIPv4 cfg ls i (JVal.jobj kvs)
      ("lidars[" ++ toString i ++ "] contains unknown keys: " ++
        renderKeys ((kvs.map Prod.fst).filter
          (fun k => !(deviceAllowedKeys.contains k)))) hl hg
    unfold deviceErrors
    apply List.mem_append_right
    have hkx : k ∈ (kvs.map Prod.fst).filter
        (fun k => !(deviceAllowedKeys.contains k)) := by
      rw [List.mem_filter]
      exact ⟨List.mem_map.mpr ⟨(k, v), hk, rfl⟩, by simpa using hka⟩
    have hne : ¬ ((kvs.map Prod.fst).filter
        (fun k => !(deviceAllowedKeys.contains k))).isEmpty = true := by
      intro hcontra
      rw [List.isEmpty_iff] at hcontra
      rw [hcontra] at hkx
      simp at hkx
    dsimp only
    rw [if_neg hne]
    simp
  · intro b k v hb hk h1 h2
    apply List.ne_nil_of_mem
    apply validate_mem_of_bridge isIPv4 cfg b
      ("bridge contains unknown keys: " ++
        renderKeys ((b.map Prod.fst).filter
          (fun k => !(k = "stdout" || k = "ndjson_udp_port")))) hb
    unfold bridgeErrors
    apply List.mem_append_right
    have hkx : k ∈ (b.map Prod.fst).filter
        (fun k => !(k = "stdout" || k = "ndjson_udp_port")) := by
      rw [List.mem_filter]
      refine ⟨List.mem_map.mpr ⟨(k, v), hk, rfl⟩, ?_⟩
      simp [h1, h2]
    have hne : ¬ ((b.map Prod.fst).filter
        (fun k => !(k = "stdout" || k = "ndjson_udp_port"))).isEmpty = true := by
      intro hcontra
      rw [List.isEmpty_iff] at hcontra
      rw [hcontra] at hkx
      simp at hkx
    dsimp only
    rw [if_neg hne]
    simp
  · intro hl
    unfold validate_config
    rw [hl]
    apply List.mem_append_left
    apply List.mem_append_left
    simp
  · intro hne ce useUdp mf ms st
    unfold initLivox load_and_validate
    by_cases hce : ce
    · rw [hce]
      cases hv : validate_config isIPv4 cfg with
      | nil => exact absurd hv hne
      | cons e es => simp [hv]
    · simp [hce]

/-- A defective configuration: empty device list. -/
def emptyLidarsCfg : List (String × JVal) := [("lidars", JVal.jarr [])]

/-- Witness for C4: `lidars: []` fails validation, the error list
identifies that lidars must be a non-empty array, and adapter
construction yields no adapter state. -/
theorem validate_config_rejects_witness :
    "'lidars' must be a non-empty array" ∈
      validate_config (fun _ => false) emptyLidarsCfg ∧
    initLivox (fun _ => false) true emptyLidarsCfg true 60 300 ≠
      Except.ok lvDemo :=
  ⟨(validate_config_rejects (fun _ => false) emptyLidarsCfg).2.2.2.2.2.2.1 rfl,
   (validate_config_rejects (fun _ => false) emptyLidarsCfg).2.2.2.2.2.2.2
     (by decide) true true 60 300 lvDemo⟩

/-! ### Ring capacity lemmas -/

theorem lastN_append_lastN (n : Nat) (xs ys : List α) :
    lastN n (lastN n xs ++ ys) = lastN n (xs ++ ys) := by
  unfold lastN
  rw [List.drop_append_eq_append_drop, List.drop_append_eq_append_drop,
      List.drop_drop]
  simp only [List.length_append, List.length_drop]
  congr 1
  · congr 1
    omega
  · congr 1
    omega

/-- The samples produced by a sequence of publishes on a sensor. -/
def samplesOf (sid : String) (entries : List (String × α)) : List (Sample α) :=
  entries.map (fun p => ⟨sid, p.1, p.2⟩)

theorem lastN_map (f : α → β) (n : Nat) (l : List α) :
    (lastN n l).map f = lastN n (l.map f) := by
  unfold lastN
  simp [List.map_drop, List.length_map]

theorem publishAll_fields (entries : List (String × α)) :
    ∀ st : AdapterState α, st.ring.length ≤ st.ringSize →
      (publishAll st entries).sensor_id = st.sensor_id ∧
      (publishAll st entries).ringSize = st.ringSize ∧
      (publishAll st entries).ring =
        lastN st.ringSize (st.ring ++ samplesOf st.sensor_id entries) := by
  induction entries with
  | nil =>
      intro st hle
      refine ⟨rfl, rfl, ?_⟩
      rw [show samplesOf st.sensor_id [] = [] from rfl, List.append_nil]
      exact (lastN_of_le _ _ hle).symm
  | cons p rest ih =>
      intro st hle
      obtain ⟨ts, d⟩ := p
      have hpub : publish st ts d =
          { st with latest := some ⟨st.sensor_id, ts, d⟩
                    ring := dequeAppend st.ringSize st.ring ⟨st.sensor_id, ts, d⟩ } :=
        publish_fields st ts d
      have hle2 : (publish st ts d).ring.length ≤ (publish st ts d).ringSize := by
        rw [hpub]
        dsimp only
        unfold dequeAppend
        rw [lastN_length]
        omega
      have h := ih (publish st ts d) hle2
      rw [show publishAll st ((ts, d) :: rest) = publishAll (publish st ts d) rest
            from rfl]
      refine ⟨?_, ?_, ?_⟩
      · rw [h.1, hpub]
      · rw [h.2.1, hpub]
      · rw [h.2.2, hpub]
        dsimp only
        unfold dequeAppend
        rw [lastN_append_lastN, List.append_assoc]
        rfl

/-- C1: publishing `N ≥ C` samples into a fresh buffer of capacity `C`
and then querying `history` with limit `N` through the manager returns
exactly `C` samples: the last `C` published values, in publish order
(the oldest were evicted first). -/
theorem publish_history_capacity (α : Type) (st : AdapterState α)
    (entries : List (String × α)) (m : SensorManagerSt α)
    (hring : st.ring = []) (hN : st.ringSize ≤ entries.length)
    (hm : m.adapters.lookup st.sensor_id = some (publishAll st entries)) :
    (mgr_history m st.sensor_id (entries.length : Int)).length = st.ringSize ∧
    (mgr_history m st.sensor_id (entries.length : Int)).map (fun s => s.data)
      = (entries.map Prod.snd).drop (entries.length - st.ringSize) ∧
    mgr_history m st.sensor_id (entries.length : Int)
      = lastN st.ringSize (samplesOf st.sensor_id entries) := by
  have hf := publishAll_fields entries st (by rw [hring]; simp)
  have hringlen : (publishAll st entries).ring
      = lastN st.ringSize (samplesOf st.sensor_id entries) := by
    rw [hf.2.2, hring]
    rfl
  have hslen : (samplesOf st.sensor_id entries).length = entries.length := by
    simp [samplesOf]
  have hlen : (publishAll st entries).ring.length = st.ringSize := by
    rw [hringlen, lastN_length, hslen]
    omega
  have hhist : mgr_history m st.sensor_id (entries.length : Int)
      = (publishAll st entries).ring := by
    unfold mgr_history
    rw [hm]
    dsimp only
    cases hn : entries.length with
    | zero => exact pySliceFrom_zero _
    | succ n =>
        rw [pySliceFrom_negNat _ _ (by omega)]
        apply lastN_of_le
        rw [hlen]
        omega
  refine ⟨?_, ?_, ?_⟩
  · rw [hhist, hlen]
  · rw [hhist, hringlen, lastN_map]
    rw [show (samplesOf st.sensor_id entries).map (fun s : Sample α => s.data)
          = entries.map Prod.snd by simp [samplesOf]]
    unfold lastN
    rw [List.length_map]
  · rw [hhist, hringlen]

/-- Witness for C1: capacity 2, three publishes, `history(3)` returns
the last two samples in publish order. -/
theorem publish_history_capacity_witness :
    mgr_history
      (⟨[("x", publishAll (initAdapter "x" "k" 2 : AdapterState Nat)
          [("t1", 10), ("t2", 20), ("t3", 30)])]⟩ : SensorManagerSt Nat)
      "x" 3
      = [⟨"x", "t2", 20⟩, ⟨"x", "t3", 30⟩] := by
  have h := publish_history_capacity Nat (initAdapter "x" "k" 2)
    [("t1", 10), ("t2", 20), ("t3", 30)]
    ⟨[("x", publishAll (initAdapter "x" "k" 2 : AdapterState Nat)
        [("t1", 10), ("t2", 20), ("t3", 30)])]⟩
    rfl (by decide) rfl
  exact h.2.2.trans (by decide)

end SensorHub
